import Mathlib

/-!
# Verification of the dimito request-dispatch core

A shallow embedding, in Lean 4, of the rate-limit-aware dispatch machinery of
the `dimito` repository: the error classifier and retry wrapper
(`callApiWithRetry` in the image-creator component), the model-fallback loops
with cooldown blacklists (`callGeminiApi`, `generateImagesForPrompt`), the
batch runners (`handleGenerate`, `handleGenerateVideo`), the credential
round-robin (`getApiKey` in `VideoCreator`, `handleDeleteKey` in `App`), the
localStorage persistence round-trip of the key list, and the key-masking
helper of the key manager.

JavaScript strings are modelled as Lean `String`/`List Char`; thrown values
as a pair of a `.message` field and a `.toString()` form; wall-clock times
as `Nat` milliseconds; the nondeterministic backend as an explicit oracle
giving the outcome of each attempt.  Asynchronous code is single-threaded
and sequential in the source (one logical UI thread), so it is embedded as
ordinary sequential state passing.

The file is organised as definitions first, then the theorems about them.
-/

namespace Dimito

/-! ## JavaScript string primitives -/

/-- `String.prototype.includes` on char lists: `needle` occurs as a
contiguous substring of the second argument. -/
def listContains (needle : List Char) : List Char → Bool
  | [] => needle.isEmpty
  | c :: t => needle.isPrefixOf (c :: t) || listContains needle t

/-- JS `hay.includes(needle)`. -/
def jsIncludes (hay needle : String) : Bool :=
  listContains needle.data hay.data

/-- JS `String.prototype.toLowerCase` (ASCII range, which is all the code
compares against). -/
def jsToLower (s : String) : String :=
  ⟨s.data.map Char.toLower⟩

/-- JS `s.substring(0, n)` (resp. `slice(0, n)`): the first `n` chars. -/
def jsTake (s : String) (n : Nat) : String :=
  ⟨s.data.take n⟩

/-- JS `s.slice(-n)`: the last `n` chars (for `n ≤ s.length`). -/
def jsSliceLast (s : String) (n : Nat) : String :=
  ⟨s.data.drop (s.data.length - n)⟩

/-! ## Thrown error values

A JavaScript `catch` receives an arbitrary value; the code reads
`(error?.message || '')` and `error.toString()`.  We model the two
observations as independent strings (for a thrown non-`Error` value, such as
a plain string, `message` is absent — modelled `""` — while the string form
is the value itself). -/

structure JsError where
  message : String
  str : String
deriving DecidableEq, Repr

/-- The rate-limit classifier of `callApiWithRetry`
(`src/components/Navbar.tsx` lines 346–348):
`errorString.includes("429") || errorMessage.includes('rate limit') ||
errorMessage.includes('resource_exhausted') || errorMessage.includes('quota')`
where `errorMessage = (error?.message || '').toLowerCase()` and
`errorString = error.toString()`. -/
def isRateLimitErrorRetry (e : JsError) : Bool :=
  jsIncludes e.str "429" ||
  jsIncludes (jsToLower e.message) "rate limit" ||
  jsIncludes (jsToLower e.message) "resource_exhausted" ||
  jsIncludes (jsToLower e.message) "quota"

/-- The identical classifying expression at the text-model fallback loop
(`callGeminiApi`, lines 436–438). -/
def isRateLimitErrorText (e : JsError) : Bool :=
  jsIncludes e.str "429" ||
  jsIncludes (jsToLower e.message) "rate limit" ||
  jsIncludes (jsToLower e.message) "resource_exhausted" ||
  jsIncludes (jsToLower e.message) "quota"

/-- The identical classifying expression at the image-model fallback loop
(`generateImagesForPrompt`, lines 521–523). -/
def isRateLimitErrorImage (e : JsError) : Bool :=
  jsIncludes e.str "429" ||
  jsIncludes (jsToLower e.message) "rate limit" ||
  jsIncludes (jsToLower e.message) "resource_exhausted" ||
  jsIncludes (jsToLower e.message) "quota"

/-- The classification rule as the spec words it: Retryable iff the message
*or the string form* contains a rate-limit signal — an HTTP 429 indicator or
any of the case-insensitive substrings `"rate limit"`,
`"resource_exhausted"`, `"quota"`. -/
def specRetryable (e : JsError) : Bool :=
  jsIncludes e.message "429" || jsIncludes e.str "429" ||
  jsIncludes (jsToLower e.message) "rate limit" ||
  jsIncludes (jsToLower e.str) "rate limit" ||
  jsIncludes (jsToLower e.message) "resource_exhausted" ||
  jsIncludes (jsToLower e.str) "resource_exhausted" ||
  jsIncludes (jsToLower e.message) "quota" ||
  jsIncludes (jsToLower e.str) "quota"

/-- A thrown plain string `"QUOTA"`: `message` is absent (`""`), the string
form is `"QUOTA"`. -/
def quotaStrError : JsError := ⟨"", "QUOTA"⟩

/-- A concrete rate-limited error: a real `Error` whose message mentions the
quota. -/
def quotaMsgError : JsError :=
  ⟨"Resource_Exhausted: quota exceeded",
   "Error: Resource_Exhausted: quota exceeded"⟩

/-- A concrete fatal error: no rate-limit signal in message or string form. -/
def fatalNetworkError : JsError :=
  ⟨"Network response was not ok.", "Error: Network response was not ok."⟩

/-! ## The retry wrapper `callApiWithRetry`

```
for (let i = 0; i < retries; i++) {
  try { return await apiCall(); }
  catch (error) {
    ... isRateLimitError ...
    if (isRateLimitError && i < retries - 1) {
      const backoffDelay = delay * Math.pow(2, i);
      await new Promise(res => setTimeout(res, backoffDelay));
    } else { throw error; }
  }
}
throw new Error('API call failed after multiple retries.');
```

The operation is modelled as an oracle `apiCall : Nat → Except JsError α`
giving the outcome of the i-th invocation.  The trace records the returned
or thrown value, the number of invocations, and the backoff sleeps. -/

structure RetryTrace (α : Type) where
  result : Except JsError α
  calls : Nat
  delays : List Nat
deriving Repr

/-- The error constructed by the unreachable-looking final
`throw new Error('API call failed after multiple retries.')` line (reached
only when `retries` is 0, since every loop iteration returns or throws). -/
def genericRetryFailure : JsError :=
  ⟨"API call failed after multiple retries.",
   "Error: API call failed after multiple retries."⟩

/-- The loop of `callApiWithRetry`, structurally recursive on the remaining
iteration count `fuel = retries - i`; `i < retries - 1` is the `f+1`
pattern's `f` being positive. -/
def retryLoop (apiCall : Nat → Except JsError α) (delay : Nat) :
    Nat → Nat → RetryTrace α
  | 0, _ => ⟨.error genericRetryFailure, 0, []⟩
  | f + 1, i =>
    match apiCall i with
    | .ok v => ⟨.ok v, 1, []⟩
    | .error e =>
      if isRateLimitErrorRetry e && 0 < f then
        let rest := retryLoop apiCall delay f (i + 1)
        ⟨rest.result, rest.calls + 1, delay * 2 ^ i :: rest.delays⟩
      else ⟨.error e, 1, []⟩

/-- `callApiWithRetry(apiCall, retries, delay)` from
`src/components/Navbar.tsx` lines 337–360 (call sites pass `retries = 3,
delay = 2000` — the defaults — or `retries = 2, delay = 1500`). -/
def callApiWithRetry (apiCall : Nat → Except JsError α) (retries delay : Nat) :
    RetryTrace α :=
  retryLoop apiCall delay retries 0

/-- Oracle for the C3 witness: rate-limit failures on attempts 0 and 1,
success on attempt 2. -/
def witnessRetryOp : Nat → Except JsError Nat := fun i =>
  if i < 2 then .error quotaMsgError else .ok 42

/-- Oracle for the C4 counterexample and witness: always throws a fatal
(non-rate-limit) error. -/
def witnessFatalOp : Nat → Except JsError Nat := fun _ =>
  .error fatalNetworkError

/-! ## Cooldown registry (`modelBlacklist` / `imagenModelBlacklist`)

A JS `Map<string, number>` from model name to expiry timestamp, used
insertion-ordered with `.get` and `.set` (the `setModelBlacklist(prev =>
new Map(prev).set(model, expiryTime))` updater). -/

/-- `Map.prototype.get`. -/
def mapGet (m : List (String × Nat)) (k : String) : Option Nat :=
  (m.find? (fun p => p.fst == k)).map (·.snd)

/-- `Map.prototype.set`: update in place if the key is present, else append. -/
def mapSet : List (String × Nat) → String → Nat → List (String × Nat)
  | [], k, v => [(k, v)]
  | (k', v') :: t, k, v =>
    if k' == k then (k, v) :: t else (k', v') :: mapSet t k v

/-- The eligibility filter body of both fallback loops
(`src/components/Navbar.tsx` lines 389–392 and 475–478):
`const expiry = blacklist.get(model); return !expiry || Date.now() > expiry;`.
JS falsiness: a *stored* expiry of `0` also passes the `!expiry` test. -/
def isModelAvailable (blacklist : List (String × Nat)) (now : Nat)
    (model : String) : Bool :=
  match mapGet blacklist model with
  | none => true
  | some expiry => expiry == 0 || decide (now > expiry)

/-- Marking a model as failed (lines 441–442 / 526–527):
`const expiryTime = Date.now() + 60 * 1000;` then
`blacklist.set(model, expiryTime)` — generalised over the cooldown
duration `d`, which the source fixes at 60 000 ms. -/
def markFailedD (blacklist : List (String × Nat)) (model : String)
    (now d : Nat) : List (String × Nat) :=
  mapSet blacklist model (now + d)

/-- The cooldown duration the source hard-codes. -/
def cooldownMs : Nat := 60000

/-! ## The image-model fallback dispatcher (`generateImagesForPrompt`)

`src/components/Navbar.tsx` lines 466–549.  The backend
(`ai.models.generateImages` behind `callApiWithRetry`) is modelled as an
oracle `String → Nat → Except JsError α`: the outcome of the i-th attempt
against a given model (the credential is the single environment key
`process.env.API_KEY`; this dispatch path iterates models, never
credentials).  `Date.now()` is modelled as a single `now` for the dispatch
(the source is single-threaded and the elapsed time within one dispatch is
not observed by any branch).  The trace records the terminal outcome, the
final blacklist, every blacklist insertion (`marks`, in order), and every
model actually attempted (`tried`, in order). -/

def IMAGEN_MODELS : List String :=
  ["imagen-3.0-generate-002", "imagen-4.0-generate-001",
   "imagen-4.0-ultra-generate-001", "imagen-4.0-fast-generate-001"]

/-- `const prioritizedModels = [model, ...IMAGEN_MODELS.filter(m => m !== model)];` -/
def prioritizedModels (selected : String) : List String :=
  selected :: IMAGEN_MODELS.filter (fun m => m != selected)

inductive ImgResult (α : Type) where
  | success (model : String) (images : α)
  | keyMissing
  | allOnCooldown
  | fatal (e : JsError)
  | allFailed (lastError : Option JsError)

structure ImgDispatchTrace (α : Type) where
  result : ImgResult α
  blacklist : List (String × Nat)
  marks : List String
  tried : List String

/-- The `for (const currentModel of availableModels)` loop: each model gets
one `callApiWithRetry(apiCall)` (defaults `retries = 3, delay = 2000`); on
success return immediately; on a rate-limit-classified error blacklist the
model for `cooldownMs` and continue; on any other error stop fatally. -/
def imgLoop (oracle : String → Nat → Except JsError α) (now : Nat) :
    List String → List (String × Nat) → List String → List String →
    Option JsError → ImgDispatchTrace α
  | [], bl, marks, tried, lastErr => ⟨.allFailed lastErr, bl, marks, tried⟩
  | m :: rest, bl, marks, tried, _ =>
    match (callApiWithRetry (oracle m) 3 2000).result with
    | .ok v => ⟨.success m v, bl, marks, tried ++ [m]⟩
    | .error e =>
      if isRateLimitErrorImage e then
        imgLoop oracle now rest (mapSet bl m (now + cooldownMs))
          (marks ++ [m]) (tried ++ [m]) (some e)
      else ⟨.fatal e, bl, marks, tried ++ [m]⟩

/-- `generateImagesForPrompt`: env-key guard, prioritized-model list,
cooldown filter, empty-list guard, then the fallback loop. -/
def generateImagesForPrompt (hasEnvKey : Bool) (selected : String)
    (bl : List (String × Nat)) (now : Nat)
    (oracle : String → Nat → Except JsError α) : ImgDispatchTrace α :=
  if !hasEnvKey then ⟨.keyMissing, bl, [], []⟩
  else
    let available := (prioritizedModels selected).filter (isModelAvailable bl now)
    if available.isEmpty then ⟨.allOnCooldown, bl, [], []⟩
    else imgLoop oracle now available bl [] [] none

/-- Scenario blacklist for C2: the third and fourth declared models are on
cooldown (expiry 1000, queried at `now = 0`), leaving exactly two eligible
models — the user-selected `imagen-3.0-generate-002` (model A) and the
fallback `imagen-4.0-generate-001` (model B). -/
def sceneBlacklist : List (String × Nat) :=
  [("imagen-4.0-ultra-generate-001", 1000),
   ("imagen-4.0-fast-generate-001", 1000)]

/-- Oracle for the C2 witness: model B succeeds with payload `7` on every
attempt; every other model throws the quota error. -/
def witnessDispatchOracle : String → Nat → Except JsError Nat := fun m _ =>
  if m == "imagen-4.0-generate-001" then .ok 7 else .error quotaMsgError

/-! ## The batch runners

`handleGenerateVideo` (`src/components/VideoCreator.tsx` lines 195–283) and
`handleGenerate` (the image component, lines 758–823 of the same source
file as the dispatcher).  Each iterates the prompt list sequentially; the
per-job body (key selection, backend call, polling, fetching — for videos;
`generateImagesForPrompt` plus metadata enrichment — for images) is
abstracted as an oracle from job index and prompt to an outcome.  Toasts
emitted *inside* the abstracted per-job body (e.g. "Video generation
started", "Fetching … video(s)") belong to the oracle and are not part of
the runner-level notice trace; the notices modelled here are exactly the
ones the loop itself emits. -/

inductive Severity where
  | info
  | success
  | error
deriving DecidableEq, Repr

structure Notice where
  message : String
  severity : Severity
deriving DecidableEq, Repr

/-- `showToast(\x60Processing prompt ${index + 1} of ${M}...\x60, 'info')`. -/
def procMsg (i M : Nat) : String :=
  "Processing prompt " ++ Nat.repr (i + 1) ++ " of " ++ Nat.repr M ++ "..."

/-- `showToast(\x60Video generation error: ${message}\x60, 'error')`. -/
def videoErrMsg (m : String) : String :=
  "Video generation error: " ++ m

/-- `showToast(\x60Failed to generate video for prompt: "${p.substring(0, 30)}..."\x60)`. -/
def videoFailMsg (p : String) : String :=
  "Failed to generate video for prompt: \"" ++ jsTake p 30 ++ "...\""

/-- `showToast(\x60Generation complete. Successfully created ${n} video(s).\x60)`. -/
def summaryMsg (n : Nat) : String :=
  "Generation complete. Successfully created " ++ Nat.repr n ++ " video(s)."

/-- `showToast(\x60Generated ${n} image(s) for prompt.\x60, 'success')`. -/
def genOkMsg (n : Nat) : String :=
  "Generated " ++ Nat.repr n ++ " image(s) for prompt."

/-- The guard message shared by both runners. -/
def noPromptNotice : Notice :=
  ⟨"Please provide at least one valid prompt.", .error⟩

structure VideoRunTrace where
  notices : List Notice
  videos : List String
  successCount : Nat
  attempted : List String
deriving DecidableEq, Repr

/-- The `for (const [index, currentPrompt] of promptsToProcess.entries())`
loop of `handleGenerateVideo`: per job, the "processing N of M" info toast;
on success the fetched URLs are appended and `totalSuccessCount` grows by
their number; on failure two error toasts; the loop always continues. -/
def videoLoop (perJob : Nat → String → Except JsError (List String))
    (M : Nat) : Nat → List String → VideoRunTrace
  | _, [] => ⟨[], [], 0, []⟩
  | i, p :: rest =>
    let t := videoLoop perJob M (i + 1) rest
    match perJob i p with
    | .ok urls =>
      ⟨⟨procMsg i M, .info⟩ :: t.notices, urls ++ t.videos,
       urls.length + t.successCount, p :: t.attempted⟩
    | .error e =>
      ⟨⟨procMsg i M, .info⟩ :: ⟨videoErrMsg e.message, .error⟩ ::
         ⟨videoFailMsg p, .error⟩ :: t.notices,
       t.videos, t.successCount, p :: t.attempted⟩

/-- `handleGenerateVideo`: the empty/blank guard, the sequential job loop,
then the single summary toast
`Generation complete. Successfully created ${totalSuccessCount} video(s).` -/
def handleGenerateVideo (perJob : Nat → String → Except JsError (List String))
    (prompts : List String) : VideoRunTrace :=
  if prompts.isEmpty || prompts.all (fun p => p == "") then
    ⟨[noPromptNotice], [], 0, []⟩
  else
    let t := videoLoop perJob prompts.length 0 prompts
    ⟨t.notices ++ [⟨summaryMsg t.successCount, .success⟩], t.videos,
     t.successCount, t.attempted⟩

structure ImageRunTrace where
  notices : List Notice
  cardsCount : Nat
  attempted : List String
deriving DecidableEq, Repr

/-- The `for (const p of promptsToProcess)` loop of the image component's
`handleGenerate`: on success a `Generated ${n} image(s) for prompt.` toast,
on failure nothing (the catch block is empty); no per-job processing notice
and no terminal summary are emitted. -/
def imageBatchLoop (perJob : Nat → String → Except JsError Nat) :
    Nat → List String → ImageRunTrace
  | _, [] => ⟨[], 0, []⟩
  | i, p :: rest =>
    let t := imageBatchLoop perJob (i + 1) rest
    match perJob i p with
    | .ok n => ⟨⟨genOkMsg n, .success⟩ :: t.notices, n + t.cardsCount,
        p :: t.attempted⟩
    | .error _ => ⟨t.notices, t.cardsCount, p :: t.attempted⟩

/-- The image component's `handleGenerate` (batch over prompts). -/
def handleGenerate (perJob : Nat → String → Except JsError Nat)
    (prompts : List String) : ImageRunTrace :=
  if prompts.isEmpty || prompts.all (fun p => p == "") then
    ⟨[noPromptNotice], 0, []⟩
  else imageBatchLoop perJob 0 prompts

/-- Number of jobs whose per-job outcome is a failure. -/
def countFailures (perJob : Nat → String → Except JsError (List String)) :
    Nat → List String → Nat
  | _, [] => 0
  | i, p :: rest =>
    (match perJob i p with | .ok _ => 0 | .error _ => 1) +
      countFailures perJob (i + 1) rest

/-- Per-job oracle: three jobs, the second (index 1) fails fatally, the
others each produce one video. -/
def threeJobsOneFail : Nat → String → Except JsError (List String) :=
  fun i _ => if i == 1 then .error fatalNetworkError else .ok ["u"]

/-- Per-job oracle: every job produces one video. -/
def allJobsSucceed : Nat → String → Except JsError (List String) :=
  fun _ _ => .ok ["u"]

/-! ## The credential pool and round-robin cursor

`VideoCreator.tsx`: `const apiKeyIndex = useRef(0);` and

```
const getApiKey = useCallback(() => {
    if (apiKeys.length === 0) return null;
    const key = apiKeys[apiKeyIndex.current];
    apiKeyIndex.current = (apiKeyIndex.current + 1) % apiKeys.length;
    return key;
}, [apiKeys]);
```

`App.tsx`: `handleDeleteKey` filters the key out of the list; nothing in
either component writes `apiKeyIndex` when the list changes.  A JS
out-of-range index read yields `undefined`; both `undefined` and `null` are
modelled as `none`. -/

structure KeyPool where
  keys : List String
  cursor : Nat
deriving DecidableEq, Repr

/-- `getApiKey`: returns the looked-up key (possibly `undefined` when the
stored cursor is out of range) and the updated pool state. -/
def getApiKey (st : KeyPool) : Option String × KeyPool :=
  if st.keys.length = 0 then (none, st)
  else (st.keys.get? st.cursor,
        ⟨st.keys, (st.cursor + 1) % st.keys.length⟩)

/-- `handleDeleteKey` in `App.tsx`
(`setApiKeys(prevKeys => prevKeys.filter(key => key !== keyToDelete))`),
paired with the fact that `VideoCreator`'s `apiKeyIndex` ref is untouched
when the `apiKeys` prop changes. -/
def deleteKey (st : KeyPool) (keyToDelete : String) : KeyPool :=
  ⟨st.keys.filter (fun key => key != keyToDelete), st.cursor⟩

/-- The error thrown by the per-job body of `handleGenerateVideo` when
`getApiKey()` returns a falsy value. -/
def noKeyError : JsError :=
  ⟨"API Key is not configured.", "Error: API Key is not configured."⟩

structure JobDispatch (α : Type) where
  result : Except JsError α
  pool : KeyPool
  backendInvoked : Bool

/-- The head of `handleGenerateVideo`'s per-job `try` block
(`VideoCreator.tsx` lines 215–239): obtain a key from the pool; if none is
available, toast and throw `API Key is not configured.` *before*
`ai.models.generateVideos` is ever built or invoked; otherwise invoke the
backend with that key. -/
def dispatchVideoJob (st : KeyPool)
    (generateVideos : String → Except JsError α) : JobDispatch α :=
  match getApiKey st with
  | (none, st') => ⟨.error noKeyError, st', false⟩
  | (some k, st') => ⟨generateVideos k, st', true⟩

/-! ## Persistence round-trip of the key list

`App.tsx` persists with `localStorage.setItem('apiKeys',
JSON.stringify(apiKeys))` and loads with `JSON.parse(storedKeys)` guarded by
`Array.isArray(parsedKeys) && parsedKeys.length > 0`.  `JSON.stringify` on
an array of strings and `JSON.parse` on its output are modelled directly:
the ECMA-262 `QuoteJSONString` escaping (`\"`, `\\`, `\b`, `\f`, `\n`,
`\r`, `\t`, and `\u00xx` with lowercase hex for the remaining code points
below `0x20`; every other character verbatim), elements joined by `,` with
no whitespace, wrapped in `[`/`]`; and a strict parser for exactly that
grammar (string escapes including `\/`, rejecting raw control characters
and trailing garbage). -/

/-- Lowercase hex digit, as `Number.prototype.toString(16)` produces. -/
def hexDigit (n : Nat) : Char :=
  if n < 10 then Char.ofNat (48 + n) else Char.ofNat (87 + n)

/-- `QuoteJSONString`'s per-character escaping. -/
def escapeChar (c : Char) : List Char :=
  if c = '"' then ['\\', '"']
  else if c = '\\' then ['\\', '\\']
  else if c = '\x08' then ['\\', 'b']
  else if c = '\x0c' then ['\\', 'f']
  else if c = '\n' then ['\\', 'n']
  else if c = '\r' then ['\\', 'r']
  else if c = '\t' then ['\\', 't']
  else if c.toNat < 32 then
    ['\\', 'u', '0', '0', hexDigit (c.toNat / 16), hexDigit (c.toNat % 16)]
  else [c]

/-- The escaped body of a JSON string literal. -/
def escBody (s : List Char) : List Char :=
  (s.map escapeChar).flatten

/-- A JSON string literal: `"` body `"`. -/
def encodeStr (s : List Char) : List Char :=
  '"' :: escBody s ++ ['"']

/-- The comma-joined element list of `JSON.stringify` on a string array. -/
def serElems : List (List Char) → List Char
  | [] => []
  | [k] => encodeStr k
  | k :: ks => encodeStr k ++ ',' :: serElems ks

/-- `JSON.stringify` on an array of strings: `[` elements `]`. -/
def serializeKeys (ks : List (List Char)) : List Char :=
  '[' :: serElems ks ++ [']']

def parseHexDigit (c : Char) : Option Nat :=
  if '0' ≤ c ∧ c ≤ '9' then some (c.toNat - 48)
  else if 'a' ≤ c ∧ c ≤ 'f' then some (c.toNat - 87)
  else if 'A' ≤ c ∧ c ≤ 'F' then some (c.toNat - 55)
  else none

/-- The single-character JSON escapes. -/
def unescapeChar (e : Char) : Option Char :=
  if e = '"' then some '"'
  else if e = '\\' then some '\\'
  else if e = '/' then some '/'
  else if e = 'b' then some '\x08'
  else if e = 'f' then some '\x0c'
  else if e = 'n' then some '\n'
  else if e = 'r' then some '\r'
  else if e = 't' then some '\t'
  else none

/-- One step of JSON string-body decoding: either the closing quote or one
decoded character, with the remaining input. -/
inductive StrTok where
  | close (rest : List Char)
  | chr (c : Char) (rest : List Char)

/-- Decode one token of a JSON string body: the closing `"`, a `\`-escape
(single-character or `\uXXXX`), or a verbatim character (raw control
characters are rejected, as `JSON.parse` does). -/
def decodeOne : List Char → Option StrTok := fun l =>
  match l with
  | [] => none
  | c :: rest =>
    if c = '"' then some (.close rest)
    else if c = '\\' then
      match rest with
      | [] => none
      | e :: rest2 =>
        if e = 'u' then
          match rest2 with
          | h1 :: h2 :: h3 :: h4 :: rest3 =>
            match parseHexDigit h1, parseHexDigit h2, parseHexDigit h3,
                parseHexDigit h4 with
            | some d1, some d2, some d3, some d4 =>
              some (.chr (Char.ofNat (d1 * 4096 + d2 * 256 + d3 * 16 + d4))
                rest3)
            | _, _, _, _ => none
          | _ => none
        else
          match unescapeChar e with
          | some uc => some (.chr uc rest2)
          | none => none
    else if c.toNat < 32 then none
    else some (.chr c rest)

/-- Parse the body of a JSON string literal (the opening `"` already
consumed); returns the decoded content and the remaining input after the
closing `"`. -/
def parseStringBody (l : List Char) : Option (List Char × List Char) :=
  match h : decodeOne l with
  | some (.close rest) => some ([], rest)
  | some (.chr c rest) =>
    (parseStringBody rest).map (fun q => (c :: q.1, q.2))
  | none => none
termination_by l.length
decreasing_by
  cases l with
  | nil => simp [decodeOne] at h
  | cons c0 l0 =>
    unfold decodeOne at h
    repeat' split at h
    all_goals simp_all
    all_goals omega

/-- Parse a nonempty comma-separated sequence of JSON string literals up to
and including the closing `]`; fuelled (any fuel at least the element count
suffices). -/
def parseElems : Nat → List Char → Option (List (List Char) × List Char)
  | 0, _ => none
  | f + 1, s =>
    match s with
    | '"' :: rest =>
      match parseStringBody rest with
      | none => none
      | some (content, rest2) =>
        match rest2 with
        | ',' :: rest3 =>
          (parseElems f rest3).map (fun q => (content :: q.1, q.2))
        | ']' :: rest3 => some ([content], rest3)
        | _ => none
    | _ => none

/-- `JSON.parse` restricted to arrays of strings, requiring the entire
input to be consumed. -/
def parseKeys (s : List Char) : Option (List (List Char)) :=
  match s with
  | [] => none
  | c :: rest =>
    if c = '[' then
      match rest with
      | [] => none
      | c2 :: rest2 =>
        if c2 = ']' then (if rest2.isEmpty then some [] else none)
        else
          match parseElems s.length rest with
          | some (ks, r) => if r.isEmpty then some ks else none
          | none => none
    else none

/-- `JSON.stringify(apiKeys)` as `App.tsx` persists it. -/
def serializeApiKeys (ks : List String) : String :=
  ⟨serializeKeys (ks.map String.data)⟩

/-- `JSON.parse(storedKeys)` specialised to the shape the app stores. -/
def parseApiKeys (s : String) : Option (List String) :=
  (parseKeys s.data).map (fun l => l.map String.mk)

/-- The load path of `App.tsx`: absent key, parse failure, or a non-array /
empty array all leave the initial `[]` state (`setApiKeys` is only called
on a nonempty parsed array). -/
def loadApiKeys (stored : Option String) : List String :=
  match stored with
  | none => []
  | some s =>
    match parseApiKeys s with
    | some ks => if 0 < ks.length then ks else []
    | none => []

/-! ## Key masking in the key-manager modal

`src/unnamed/part_000` (`ApiKeyManager`), lines 37–41:

```
const maskKey = (key: string) => {
    if (showKeys) return key;
    if (key.length < 8) return '********';
    return `${key.slice(0, 4)}...${key.slice(-4)}`;
};
```
-/

def maskKey (showKeys : Bool) (key : String) : String :=
  if showKeys then key
  else if key.length < 8 then "********"
  else jsTake key 4 ++ "..." ++ jsSliceLast key 4

/-! ## Theorems -/

/-- C1 counterexample: an error whose *string form* contains the
case-insensitive substring `"quota"` while its `message` does not.  The
spec's rule classifies it Retryable, but the code's classifier checks the
three case-insensitive substrings only against the lowercased `message`
(and only `"429"` against the string form), so it classifies it Fatal. -/
theorem classifier_spec_code_disagree :
    specRetryable quotaStrError = true ∧
    isRateLimitErrorRetry quotaStrError = false ∧
    isRateLimitErrorText quotaStrError = false ∧
    isRateLimitErrorImage quotaStrError = false := by
  decide

/-- C1 (amended): the classifier used by the retry wrapper classifies an
error Retryable iff its string form contains `"429"` or its lowercased
`message` contains one of `"rate limit"`, `"resource_exhausted"`, `"quota"`
(so the three substrings are matched case-insensitively against the message
only, and the 429 indicator against the string form only); every other error
is Fatal; and the text-model and image-model fallback loops classify with
exactly the same predicate. -/
theorem classifier_amended (e : JsError) :
    isRateLimitErrorText e = isRateLimitErrorRetry e ∧
    isRateLimitErrorImage e = isRateLimitErrorRetry e ∧
    (isRateLimitErrorRetry e = true ↔
      (jsIncludes e.str "429" = true ∨
       jsIncludes (jsToLower e.message) "rate limit" = true ∨
       jsIncludes (jsToLower e.message) "resource_exhausted" = true ∨
       jsIncludes (jsToLower e.message) "quota" = true)) := by
  refine ⟨rfl, rfl, ?_⟩
  simp [isRateLimitErrorRetry, Bool.or_eq_true]
  tauto

/-- C3: an operation that fails with rate-limit-classified errors on its
first two invocations and succeeds on its third, run with `retries = 3`:
the wrapper returns the success value, the operation is invoked exactly 3
times, and the two inter-attempt delays are `delay * 2^0 = base` and
`delay * 2^1 = 2 * base`. -/
theorem retry_two_rate_limits_then_success (op : Nat → Except JsError α)
    (e₀ e₁ : JsError) (v : α) (base : Nat)
    (h0 : op 0 = .error e₀) (hr0 : isRateLimitErrorRetry e₀ = true)
    (h1 : op 1 = .error e₁) (hr1 : isRateLimitErrorRetry e₁ = true)
    (h2 : op 2 = .ok v) :
    (callApiWithRetry op 3 base).result = .ok v ∧
    (callApiWithRetry op 3 base).calls = 3 ∧
    (callApiWithRetry op 3 base).delays = [base, 2 * base] := by
  simp [callApiWithRetry, retryLoop, h0, h1, h2, hr0, hr1]
  ring

/-- C3 witness at a concrete operation and `base = 1500`. -/
theorem retry_two_rate_limits_then_success_witness :
    (callApiWithRetry witnessRetryOp 3 1500).result = .ok 42 ∧
    (callApiWithRetry witnessRetryOp 3 1500).calls = 3 ∧
    (callApiWithRetry witnessRetryOp 3 1500).delays = [1500, 2 * 1500] :=
  retry_two_rate_limits_then_success witnessRetryOp quotaMsgError
    quotaMsgError 42 1500 rfl (by decide) rfl (by decide) rfl

/-- C4 counterexample: with `retries = 0` the loop body never runs, so a
fatally-failing operation is invoked *zero* times — not once — and the error
raised is the wrapper's own generic failure, not the operation's error.  The
claim asserts exactly one invocation and the operation's own error for
*every* `maxAttempts` value. -/
theorem retry_fatal_zero_attempts_counterexample :
    (callApiWithRetry witnessFatalOp 0 2000).calls = 0 ∧
    (callApiWithRetry witnessFatalOp 0 2000).result =
      .error genericRetryFailure ∧
    genericRetryFailure ≠ fatalNetworkError := by
  refine ⟨rfl, rfl, ?_⟩
  decide

/-- C4 (amended): for every operation whose first-attempt error carries no
rate-limit signal and every `retries ≥ 1`, the wrapper invokes the operation
exactly once, raises exactly that error, and sleeps no backoff delays. -/
theorem retry_fatal_raises_immediately (op : Nat → Except JsError α)
    (e : JsError) (retries base : Nat)
    (hE : op 0 = .error e) (hF : isRateLimitErrorRetry e = false)
    (hR : 1 ≤ retries) :
    (callApiWithRetry op retries base).result = .error e ∧
    (callApiWithRetry op retries base).calls = 1 ∧
    (callApiWithRetry op retries base).delays = [] := by
  obtain ⟨f, rfl⟩ : ∃ f, retries = f + 1 :=
    ⟨retries - 1, (Nat.succ_pred_eq_of_pos hR).symm⟩
  simp [callApiWithRetry, retryLoop, hE, hF]

/-- C4 witness: the fatal operation with `retries = 5`. -/
theorem retry_fatal_raises_immediately_witness :
    (callApiWithRetry witnessFatalOp 5 2000).result =
      .error fatalNetworkError ∧
    (callApiWithRetry witnessFatalOp 5 2000).calls = 1 ∧
    (callApiWithRetry witnessFatalOp 5 2000).delays = [] :=
  retry_fatal_raises_immediately witnessFatalOp fatalNetworkError 5 2000
    rfl (by decide) (by decide)

theorem mapGet_mapSet_self (m : List (String × Nat)) (k : String) (v : Nat) :
    mapGet (mapSet m k v) k = some v := by
  induction m with
  | nil => simp [mapGet, mapSet, List.find?]
  | cons p t ih =>
    obtain ⟨k', v'⟩ := p
    by_cases h : k' = k
    · simp [mapGet, mapSet, h, List.find?]
    · have hb : (k' == k) = false := beq_false_of_ne h
      simpa [mapGet, mapSet, hb, List.find?] using ih

/-- C5 counterexample: mark a model failed at time `now = 0` with the
source's 60 000 ms cooldown, and query eligibility at *exactly*
`now + d = 60000`.  The claim says the resource is eligible again for every
`now' ≥ now + d`; the code's strict `Date.now() > expiry` still excludes it
at that instant. -/
theorem cooldown_boundary_counterexample :
    isModelAvailable (markFailedD [] "imagen-3.0-generate-002" 0 60000)
      60000 "imagen-3.0-generate-002" = false := by
  decide

/-- C5 (amended): after `markFailed(c, d)` at time `now` (with `now + d > 0`,
ruling out the JS-falsy stored expiry `0`), the eligibility check excludes
`c` for every query time `now' ≤ now + d` and includes it again exactly for
`now' > now + d`; and in general a resource is eligible iff no entry exists
for it, or the stored expiry is `0`, or the query time is strictly past the
stored expiry. -/
theorem cooldown_eligibility_amended (blacklist : List (String × Nat))
    (c : String) (now d now' : Nat) (h : 0 < now + d) :
    (isModelAvailable (markFailedD blacklist c now d) now' c =
      decide (now + d < now')) ∧
    (∀ (bl : List (String × Nat)) (m : String) (t : Nat),
      isModelAvailable bl t m = true ↔
        mapGet bl m = none ∨ mapGet bl m = some 0 ∨
        ∃ e, mapGet bl m = some e ∧ e < t) := by
  constructor
  · have hg := mapGet_mapSet_self blacklist c (now + d)
    have hz : ((now + d : Nat) == 0) = false := by
      simpa [Nat.beq_eq_true_eq] using Nat.pos_iff_ne_zero.mp h
    simp [isModelAvailable, markFailedD, hg, hz]
  · intro bl m t
    unfold isModelAvailable
    cases hg : mapGet bl m with
    | none => simp
    | some e =>
      rcases Nat.eq_zero_or_pos e with rfl | he
      · simp
      · have hz : (e == 0) = false := by
          simpa [Nat.beq_eq_true_eq] using Nat.pos_iff_ne_zero.mp he
        simp only [hz, Bool.false_or, decide_eq_true_eq]
        constructor
        · intro hlt
          exact Or.inr (Or.inr ⟨e, rfl, hlt⟩)
        · rintro (hc | hc | ⟨e', he', hlt⟩)
          · exact absurd hc (by simp)
          · exact absurd hc (by simpa using Nat.pos_iff_ne_zero.mp he)
          · cases he'; exact hlt

/-- C5 witness: a concrete instantiation — after marking at `now = 100` with
`d = 60000`, the model is ineligible at `60100` and eligible at `60101`. -/
theorem cooldown_eligibility_amended_witness :
    ((isModelAvailable (markFailedD [] "m" 100 60000) 60100 "m" =
        decide ((100 + 60000 : Nat) < 60100)) ∧
      (∀ (bl : List (String × Nat)) (m : String) (t : Nat),
        isModelAvailable bl t m = true ↔
          mapGet bl m = none ∨ mapGet bl m = some 0 ∨
          ∃ e, mapGet bl m = some e ∧ e < t)) ∧
    (isModelAvailable (markFailedD [] "m" 100 60000) 60101 "m" =
      decide ((100 + 60000 : Nat) < 60101)) :=
  ⟨cooldown_eligibility_amended [] "m" 100 60000 60100 (by decide),
   (cooldown_eligibility_amended [] "m" 100 60000 60101 (by decide)).1⟩

/-- C2: with two eligible models where model A rate-limits on every attempt
and model B succeeds on its first try, the dispatcher returns success with
model B; model A enters the cooldown registry exactly once (one insertion,
expiry `now + 60000`); and the models are tried in priority order — the
user-selected model first, then the remaining declared models in declaration
order. -/
theorem dispatcher_fallback_scenario {α : Type} (v : α) (eA : JsError)
    (oracle : String → Nat → Except JsError α)
    (hA : ∀ i, oracle "imagen-3.0-generate-002" i = .error eA)
    (hRate : isRateLimitErrorImage eA = true)
    (hB : oracle "imagen-4.0-generate-001" 0 = .ok v) :
    (generateImagesForPrompt true "imagen-3.0-generate-002" sceneBlacklist 0
        oracle).result = .success "imagen-4.0-generate-001" v ∧
    (generateImagesForPrompt true "imagen-3.0-generate-002" sceneBlacklist 0
        oracle).marks = ["imagen-3.0-generate-002"] ∧
    (generateImagesForPrompt true "imagen-3.0-generate-002" sceneBlacklist 0
        oracle).tried =
      ["imagen-3.0-generate-002", "imagen-4.0-generate-001"] ∧
    mapGet (generateImagesForPrompt true "imagen-3.0-generate-002"
        sceneBlacklist 0 oracle).blacklist "imagen-3.0-generate-002" =
      some cooldownMs ∧
    prioritizedModels "imagen-3.0-generate-002" = IMAGEN_MODELS ∧
    (prioritizedModels "imagen-3.0-generate-002").filter
        (isModelAvailable sceneBlacklist 0) =
      ["imagen-3.0-generate-002", "imagen-4.0-generate-001"] := by
  have hRate' : isRateLimitErrorRetry eA = true := hRate
  have havail : (prioritizedModels "imagen-3.0-generate-002").filter
      (isModelAvailable sceneBlacklist 0) =
      ["imagen-3.0-generate-002", "imagen-4.0-generate-001"] := by decide
  have hretryA : (callApiWithRetry (oracle "imagen-3.0-generate-002") 3
      2000).result = .error eA := by
    simp [callApiWithRetry, retryLoop, hA 0, hA 1, hA 2, hRate']
  have hretryB : (callApiWithRetry (oracle "imagen-4.0-generate-001") 3
      2000).result = .ok v := by
    simp [callApiWithRetry, retryLoop, hB]
  have hloop : imgLoop oracle 0
      ["imagen-3.0-generate-002", "imagen-4.0-generate-001"] sceneBlacklist
      [] [] none =
      ⟨.success "imagen-4.0-generate-001" v,
       mapSet sceneBlacklist "imagen-3.0-generate-002" (0 + cooldownMs),
       ["imagen-3.0-generate-002"],
       ["imagen-3.0-generate-002", "imagen-4.0-generate-001"]⟩ := by
    rw [imgLoop, hretryA]
    simp only [hRate, if_true]
    rw [imgLoop, hretryB]
    simp
  have hgen : generateImagesForPrompt true "imagen-3.0-generate-002"
      sceneBlacklist 0 oracle =
      ⟨.success "imagen-4.0-generate-001" v,
       mapSet sceneBlacklist "imagen-3.0-generate-002" (0 + cooldownMs),
       ["imagen-3.0-generate-002"],
       ["imagen-3.0-generate-002", "imagen-4.0-generate-001"]⟩ := by
    unfold generateImagesForPrompt
    rw [havail]
    simpa using hloop
  refine ⟨?_, ?_, ?_, ?_, by decide, havail⟩ <;> rw [hgen]
  show mapGet (mapSet sceneBlacklist "imagen-3.0-generate-002"
    (0 + cooldownMs)) "imagen-3.0-generate-002" = some cooldownMs
  decide

/-- C2 witness at the concrete oracle. -/
theorem dispatcher_fallback_scenario_witness :
    (generateImagesForPrompt true "imagen-3.0-generate-002" sceneBlacklist 0
        witnessDispatchOracle).result =
      .success "imagen-4.0-generate-001" 7 ∧
    (generateImagesForPrompt true "imagen-3.0-generate-002" sceneBlacklist 0
        witnessDispatchOracle).marks = ["imagen-3.0-generate-002"] ∧
    (generateImagesForPrompt true "imagen-3.0-generate-002" sceneBlacklist 0
        witnessDispatchOracle).tried =
      ["imagen-3.0-generate-002", "imagen-4.0-generate-001"] ∧
    mapGet (generateImagesForPrompt true "imagen-3.0-generate-002"
        sceneBlacklist 0 witnessDispatchOracle).blacklist
        "imagen-3.0-generate-002" = some cooldownMs ∧
    prioritizedModels "imagen-3.0-generate-002" = IMAGEN_MODELS ∧
    (prioritizedModels "imagen-3.0-generate-002").filter
        (isModelAvailable sceneBlacklist 0) =
      ["imagen-3.0-generate-002", "imagen-4.0-generate-001"] :=
  dispatcher_fallback_scenario 7 quotaMsgError witnessDispatchOracle
    (fun _ => rfl) (by decide) rfl

/-- C6 counterexample: the terminal summary notice reports only the success
count, never the failure count — a 3-job run with 1 failure and a 2-job run
with 0 failures emit the *identical* summary notice, so the summary cannot
contain the failure count.  All jobs are still attempted in order. -/
theorem jobqueue_summary_counterexample :
    (handleGenerateVideo threeJobsOneFail ["a", "b", "c"]).notices.getLast? =
      (handleGenerateVideo allJobsSucceed ["a", "c"]).notices.getLast? ∧
    countFailures threeJobsOneFail 0 ["a", "b", "c"] = 1 ∧
    countFailures allJobsSucceed 0 ["a", "c"] = 0 ∧
    (handleGenerateVideo threeJobsOneFail ["a", "b", "c"]).attempted =
      ["a", "b", "c"] := by
  decide

theorem videoLoop_attempted (perJob : Nat → String → Except JsError (List String))
    (M : Nat) : ∀ (i : Nat) (ps : List String),
    (videoLoop perJob M i ps).attempted = ps := by
  intro i ps
  induction ps generalizing i with
  | nil => rfl
  | cons p rest ih =>
    cases h : perJob i p <;> simp [videoLoop, h, ih]

theorem videoLoop_proc_mem (perJob : Nat → String → Except JsError (List String))
    (M : Nat) : ∀ (ps : List String) (i j : Nat), j < ps.length →
    Notice.mk (procMsg (i + j) M) .info ∈ (videoLoop perJob M i ps).notices := by
  intro ps
  induction ps with
  | nil => intro i j hj; exact absurd hj (by simp)
  | cons p rest ih =>
    intro i j hj
    match j with
    | 0 => cases h : perJob i p <;> simp [videoLoop, h]
    | j' + 1 =>
      have hj' : j' < rest.length := Nat.lt_of_succ_lt_succ hj
      have hmem := ih (i + 1) j' hj'
      have harith : i + 1 + j' = i + (j' + 1) := by omega
      rw [harith] at hmem
      cases h : perJob i p <;> simp [videoLoop, h] <;>
        exact Or.inr hmem

theorem imageBatchLoop_attempted (perJob : Nat → String → Except JsError Nat) :
    ∀ (i : Nat) (ps : List String),
    (imageBatchLoop perJob i ps).attempted = ps := by
  intro i ps
  induction ps generalizing i with
  | nil => rfl
  | cons p rest ih =>
    cases h : perJob i p <;> simp [imageBatchLoop, h, ih]

/-- C6 (amended): both batch runners attempt every job strictly in input
order, and one job's failure never prevents later jobs from being attempted
(the attempted list always equals the full prompt list).  The video runner
emits a "processing N of M" notice for each job and, after all jobs, exactly
one summary notice — which reports only the count of successfully created
videos, not the failure count.  The image runner emits neither per-job
processing notices nor a summary. -/
theorem jobqueue_runner_amended
    (perJobV : Nat → String → Except JsError (List String))
    (perJobI : Nat → String → Except JsError Nat) (prompts : List String)
    (hvalid : (prompts.isEmpty || prompts.all (fun p => p == "")) = false) :
    (handleGenerateVideo perJobV prompts).attempted = prompts ∧
    (∀ j, j < prompts.length →
      Notice.mk (procMsg j prompts.length) .info ∈
        (handleGenerateVideo perJobV prompts).notices) ∧
    (handleGenerateVideo perJobV prompts).notices.getLast? =
      some ⟨summaryMsg (handleGenerateVideo perJobV prompts).successCount,
            .success⟩ ∧
    (handleGenerate perJobI prompts).attempted = prompts := by
  rw [handleGenerateVideo, handleGenerate, hvalid]
  simp only [Bool.false_eq_true, if_false]
  refine ⟨videoLoop_attempted perJobV prompts.length 0 prompts, ?_, ?_,
    imageBatchLoop_attempted perJobI 0 prompts⟩
  · intro j hj
    have := videoLoop_proc_mem perJobV prompts.length prompts 0 j hj
    simp only [Nat.zero_add] at this
    exact List.mem_append_left _ this
  · simp [List.getLast?_concat]

/-- C6 witness: the amended statement at the concrete 3-job run with a
failure at index 1. -/
theorem jobqueue_runner_amended_witness :
    (handleGenerateVideo threeJobsOneFail ["a", "b", "c"]).attempted =
      ["a", "b", "c"] ∧
    (∀ j, j < (["a", "b", "c"] : List String).length →
      Notice.mk (procMsg j (["a", "b", "c"] : List String).length) .info ∈
        (handleGenerateVideo threeJobsOneFail ["a", "b", "c"]).notices) ∧
    (handleGenerateVideo threeJobsOneFail ["a", "b", "c"]).notices.getLast? =
      some ⟨summaryMsg (handleGenerateVideo threeJobsOneFail
              ["a", "b", "c"]).successCount, .success⟩ ∧
    (handleGenerate (fun i p => (threeJobsOneFail i p).map List.length)
        ["a", "b", "c"]).attempted = ["a", "b", "c"] :=
  jobqueue_runner_amended threeJobsOneFail
    (fun i p => (threeJobsOneFail i p).map List.length) ["a", "b", "c"]
    (by decide)

/-- C7: with an empty credential pool, the per-job dispatch fails
immediately with the no-credential error and the caller-supplied backend
call is never invoked; the pool state is unchanged. -/
theorem empty_pool_dispatch_fails {α : Type} (st : KeyPool)
    (generateVideos : String → Except JsError α) (h : st.keys = []) :
    (dispatchVideoJob st generateVideos).result = .error noKeyError ∧
    (dispatchVideoJob st generateVideos).backendInvoked = false ∧
    (dispatchVideoJob st generateVideos).pool = st := by
  have hlen : st.keys.length = 0 := by rw [h]; rfl
  simp [dispatchVideoJob, getApiKey, hlen]

/-- C7 witness: the empty pool with a backend that would succeed. -/
theorem empty_pool_dispatch_fails_witness :
    (dispatchVideoJob ⟨[], 0⟩ (fun _ => (.ok 1 : Except JsError Nat))).result =
      .error noKeyError ∧
    (dispatchVideoJob ⟨[], 0⟩
        (fun _ => (.ok 1 : Except JsError Nat))).backendInvoked = false ∧
    (dispatchVideoJob ⟨[], 0⟩ (fun _ => (.ok 1 : Except JsError Nat))).pool =
      ⟨[], 0⟩ :=
  empty_pool_dispatch_fails ⟨[], 0⟩ (fun _ => (.ok 1 : Except JsError Nat)) rfl

/-- C8 counterexample: start from the pool `["a", "b", "c"]` with the cursor
legitimately at 2 (after two dispatches), delete `"c"`.  The cursor is *not*
reset to 0 (it stays 2, out of range for the shrunken pool), and the next
credential lookup at the cursor yields a missing credential (`undefined`)
even though the pool is nonempty. -/
theorem cursor_shrink_counterexample :
    (deleteKey ⟨["a", "b", "c"], 2⟩ "c").cursor = 2 ∧
    (deleteKey ⟨["a", "b", "c"], 2⟩ "c").keys = ["a", "b"] ∧
    (getApiKey (deleteKey ⟨["a", "b", "c"], 2⟩ "c")).1 = none := by
  decide

/-- C8 (amended): the cursor advances by one modulo the pool size on every
`getApiKey` call against a nonempty pool, so after any such call it is again
a valid index; while the pool is fixed and the cursor in range, the lookup
never yields a missing credential.  But the cursor is *not* reset when the
pool shrinks: deletion leaves it unchanged, so immediately after a deletion
that brings the pool size to or below the stored cursor, one lookup yields a
missing credential (after which the modulo advance restores the in-range
invariant). -/
theorem cursor_amended (st : KeyPool) (keyToDelete : String)
    (h : st.keys ≠ []) :
    (getApiKey st).2.cursor < st.keys.length ∧
    (getApiKey st).2.keys = st.keys ∧
    (st.cursor < st.keys.length → (getApiKey st).1.isSome) ∧
    (deleteKey st keyToDelete).cursor = st.cursor := by
  have hlen : st.keys.length ≠ 0 := by
    simpa [List.length_eq_zero] using h
  refine ⟨?_, ?_, ?_, rfl⟩
  · simp only [getApiKey, hlen, if_neg]
    exact Nat.mod_lt _ (Nat.pos_of_ne_zero hlen)
  · simp [getApiKey, hlen]
  · intro hc
    simp only [getApiKey, hlen, if_neg]
    rw [List.get?_eq_get hc]
    rfl

/-- C8 witness: the three-key pool with cursor 1. -/
theorem cursor_amended_witness :
    (getApiKey ⟨["a", "b", "c"], 1⟩).2.cursor <
      (["a", "b", "c"] : List String).length ∧
    (getApiKey ⟨["a", "b", "c"], 1⟩).2.keys = ["a", "b", "c"] ∧
    ((1 : Nat) < (["a", "b", "c"] : List String).length →
      (getApiKey ⟨["a", "b", "c"], 1⟩).1.isSome) ∧
    (deleteKey ⟨["a", "b", "c"], 1⟩ "b").cursor = 1 :=
  cursor_amended ⟨["a", "b", "c"], 1⟩ "b" (by decide)

theorem parseHexDigit_hexDigit (d : Nat) (h : d < 16) :
    parseHexDigit (hexDigit d) = some d := by
  interval_cases d <;> decide

theorem decodeOne_close (Y : List Char) :
    decodeOne ('"' :: Y) = some (.close Y) := by
  simp [decodeOne]

theorem decodeOne_escape (c : Char) (Y : List Char) :
    decodeOne (escapeChar c ++ Y) = some (.chr c Y) := by
  by_cases h1 : c = '"'
  · subst h1; simp [escapeChar, decodeOne, unescapeChar]
  by_cases h2 : c = '\\'
  · subst h2; simp [escapeChar, decodeOne, unescapeChar]
  by_cases h3 : c = '\x08'
  · subst h3; simp [escapeChar, decodeOne, unescapeChar]
  by_cases h4 : c = '\x0c'
  · subst h4; simp [escapeChar, decodeOne, unescapeChar]
  by_cases h5 : c = '\n'
  · subst h5; simp [escapeChar, decodeOne, unescapeChar]
  by_cases h6 : c = '\r'
  · subst h6; simp [escapeChar, decodeOne, unescapeChar]
  by_cases h7 : c = '\t'
  · subst h7; simp [escapeChar, decodeOne, unescapeChar]
  by_cases h8 : c.toNat < 32
  · have hesc : escapeChar c =
        ['\\', 'u', '0', '0', hexDigit (c.toNat / 16),
         hexDigit (c.toNat % 16)] := by
      simp [escapeChar, h1, h2, h3, h4, h5, h6, h7, h8]
    have hd3 : parseHexDigit (hexDigit (c.toNat / 16)) =
        some (c.toNat / 16) := parseHexDigit_hexDigit _ (by omega)
    have hd4 : parseHexDigit (hexDigit (c.toNat % 16)) =
        some (c.toNat % 16) := parseHexDigit_hexDigit _ (by omega)
    have h0 : parseHexDigit '0' = some 0 := by decide
    rw [hesc]
    simp only [List.cons_append, List.nil_append, decodeOne]
    simp only [h0, hd3, hd4]
    simp only [reduceIte]
    have hval2 : c.toNat / 16 * 16 + c.toNat % 16 = c.toNat := by omega
    simp [hval2, Char.ofNat_toNat]
  · have hesc : escapeChar c = [c] := by
      simp [escapeChar, h1, h2, h3, h4, h5, h6, h7, h8]
    rw [hesc]
    simp [decodeOne, h1, h2, h8]

theorem parseStringBody_close (l rest : List Char)
    (h : decodeOne l = some (.close rest)) :
    parseStringBody l = some ([], rest) := by
  rw [parseStringBody]
  split <;> simp_all

theorem parseStringBody_chr (l rest : List Char) (c : Char)
    (h : decodeOne l = some (.chr c rest)) :
    parseStringBody l =
      (parseStringBody rest).map (fun q => (c :: q.1, q.2)) := by
  rw [parseStringBody]
  split <;> simp_all

theorem parseStringBody_ser (k : List Char) :
    ∀ (rest : List Char),
    parseStringBody (escBody k ++ '"' :: rest) = some (k, rest) := by
  induction k with
  | nil =>
    intro rest
    have he : escBody ([] : List Char) ++ '"' :: rest = '"' :: rest := by
      simp [escBody]
    rw [he, parseStringBody_close _ _ (decodeOne_close rest)]
  | cons c k ih =>
    intro rest
    have he : escBody (c :: k) ++ '"' :: rest =
        escapeChar c ++ (escBody k ++ '"' :: rest) := by
      simp [escBody]
    rw [he, parseStringBody_chr _ _ _
      (decodeOne_escape c (escBody k ++ '"' :: rest))]
    simp [ih rest]

theorem parseElems_ser (ks : List (List Char)) :
    ∀ (fuel : Nat) (suffix : List Char), ks ≠ [] → ks.length ≤ fuel →
    parseElems fuel (serElems ks ++ ']' :: suffix) = some (ks, suffix) := by
  induction ks with
  | nil => intro _ _ h; exact absurd rfl h
  | cons k ks ih =>
    intro fuel suffix _ hf
    obtain ⟨f, rfl⟩ : ∃ f, fuel = f + 1 :=
      ⟨fuel - 1, by simp at hf; omega⟩
    cases ks with
    | nil =>
      have hi : serElems [k] ++ ']' :: suffix =
          '"' :: (escBody k ++ '"' :: ']' :: suffix) := by
        simp [serElems, encodeStr]
      have hs := parseStringBody_ser k (']' :: suffix)
      rw [hi, parseElems]
      simp [hs]
    | cons k2 ks' =>
      have hi : serElems (k :: k2 :: ks') ++ ']' :: suffix =
          '"' :: (escBody k ++ '"' ::
            (',' :: (serElems (k2 :: ks') ++ ']' :: suffix))) := by
        simp [serElems, encodeStr]
      have hs := parseStringBody_ser k
        (',' :: (serElems (k2 :: ks') ++ ']' :: suffix))
      have hrec := ih f suffix (by simp) (by simp at hf ⊢; omega)
      rw [hi, parseElems]
      simp [hs, hrec]

theorem serElems_length (ks : List (List Char)) :
    ks.length ≤ (serElems ks).length := by
  induction ks with
  | nil => simp [serElems]
  | cons k ks ih =>
    cases ks with
    | nil => simp [serElems, encodeStr]
    | cons k2 ks' =>
      have he : serElems (k :: k2 :: ks') =
          encodeStr k ++ ',' :: serElems (k2 :: ks') := rfl
      rw [he]
      simp only [List.length_cons, List.length_append, encodeStr] at ih ⊢
      omega

theorem parseKeys_ser (ks : List (List Char)) :
    parseKeys (serializeKeys ks) = some ks := by
  cases ks with
  | nil => decide
  | cons k ks' =>
    obtain ⟨t, ht⟩ : ∃ t, serElems (k :: ks') = '"' :: t := by
      cases ks' with
      | nil => exact ⟨escBody k ++ ['"'], rfl⟩
      | cons k2 ks'' =>
        refine ⟨escBody k ++ ['"'] ++ ',' :: serElems (k2 :: ks''), ?_⟩
        simp [serElems, encodeStr]
    have hser : serializeKeys (k :: ks') = '[' :: '"' :: (t ++ [']']) := by
      simp [serializeKeys, ht]
    have hrest : serElems (k :: ks') ++ ']' :: ([] : List Char) =
        '"' :: (t ++ [']']) := by
      simp [ht]
    have hlen : (k :: ks').length ≤ t.length + 1 + 1 + 1 := by
      have h1 := serElems_length (k :: ks')
      rw [ht] at h1
      simp at h1
      simp
      omega
    have helems := parseElems_ser (k :: ks') (t.length + 1 + 1 + 1) []
      (by simp) hlen
    rw [hrest] at helems
    rw [hser, parseKeys]
    simp [helems]

/-- C9: serialising the credential pool's visible list of key strings and
loading it back (the `localStorage` persist/load round-trip of `App.tsx`,
cooldown state excluded as it is never persisted) yields the same ordered
list of credential values — both at the raw `JSON.parse ∘ JSON.stringify`
level and through the guarded load path (where an empty stored array leaves
the initial empty state, which coincides with the serialised empty list). -/
theorem credential_pool_roundtrip (ks : List String) :
    parseApiKeys (serializeApiKeys ks) = some ks ∧
    loadApiKeys (some (serializeApiKeys ks)) = ks := by
  have hcomp : (String.mk ∘ String.data) = (id : String → String) :=
    funext fun s => rfl
  have hparse : parseApiKeys (serializeApiKeys ks) = some ks := by
    unfold parseApiKeys serializeApiKeys
    rw [show (String.mk (serializeKeys (ks.map String.data))).data =
        serializeKeys (ks.map String.data) from rfl]
    rw [parseKeys_ser]
    simp [List.map_map, hcomp]
  refine ⟨hparse, ?_⟩
  have hl : loadApiKeys (some (serializeApiKeys ks)) =
      (match parseApiKeys (serializeApiKeys ks) with
       | some l => if 0 < l.length then l else []
       | none => []) := rfl
  rw [hl, hparse]
  cases ks with
  | nil => rfl
  | cons k ks' => simp

/-- C10: with key display hidden, keys shorter than 8 characters mask to
the fixed `"********"`; keys of length ≥ 8 mask to the first four
characters, `"..."`, and the last four; and for a key of exactly 8
characters the masked form still contains every character of the key. -/
theorem maskKey_behavior (key : String) :
    (key.length < 8 → maskKey false key = "********") ∧
    (8 ≤ key.length → (maskKey false key).data =
        key.data.take 4 ++ ['.', '.', '.'] ++
        key.data.drop (key.data.length - 4)) ∧
    (key.length = 8 → ∀ c ∈ key.data, c ∈ (maskKey false key).data) := by
  have hlen : key.length = key.data.length := by cases key; rfl
  have hlong : 8 ≤ key.length → (maskKey false key).data =
      key.data.take 4 ++ ['.', '.', '.'] ++
      key.data.drop (key.data.length - 4) := by
    intro h
    have hn : ¬ key.length < 8 := by omega
    simp [maskKey, hn, jsTake, jsSliceLast]
  refine ⟨?_, hlong, ?_⟩
  · intro h
    simp [maskKey, h]
  · intro h8 c hc
    have hdata := hlong (by omega)
    have h4 : key.data.length - 4 = 4 := by omega
    rw [hdata, h4]
    have hsplit := List.take_append_drop 4 key.data
    rw [← hsplit] at hc
    rcases List.mem_append.mp hc with hm | hm
    · exact List.mem_append.mpr (Or.inl (List.mem_append.mpr (Or.inl hm)))
    · exact List.mem_append.mpr (Or.inr hm)

/-- C10 witness: a 3-character key masks to the fixed string; an
8-character key masks to first-four + dots + last-four, and its last
character is still present in the masked form. -/
theorem maskKey_behavior_witness :
    maskKey false "abc" = "********" ∧
    (maskKey false "abcdefgh").data =
      ("abcdefgh" : String).data.take 4 ++ ['.', '.', '.'] ++
        ("abcdefgh" : String).data.drop
          (("abcdefgh" : String).data.length - 4) ∧
    'h' ∈ (maskKey false "abcdefgh").data :=
  ⟨(maskKey_behavior "abc").1 (by decide),
   (maskKey_behavior "abcdefgh").2.1 (by decide),
   (maskKey_behavior "abcdefgh").2.2 (by decide) 'h' (by decide)⟩

end Dimito
